import Mathlib

/-!
Verification of the apartment-analysis scoring service of the
mulktahlilchi repository.  The service exists in two variants:

* the extended variant (`src/app/api/analyze/route.ts`), returning a
  score, label, explanation, per-factor breakdown and market insights;
* the simple variant (`src/unnamed/part_001`), returning a score, label
  and explanation, with a bounded random jitter term.

JavaScript numbers are modelled as rationals (`ℚ`) with exact decimal
literals; `Math.floor` and `Math.round` become `Int.floor`-based
functions; `new Date().getFullYear()` becomes an explicit `currentYear`
parameter; every call to `Math.random()` becomes an explicit rational
parameter (the jitter draw and the template draw of the simple variant,
and a stream `rng : ℕ → ℚ` for the four listing counts of the extended
variant).  Strings are Lean strings; `String.prototype.includes` and
`toLowerCase` are modelled character-by-character below.
-/

namespace MulkTahlilchi

/-! ## String helpers (JS `toLowerCase` / `includes`) -/

/-- JS `s.toLowerCase()` restricted to the characters this program uses. -/
def lowerStr (s : String) : String := String.mk (s.toList.map Char.toLower)

/-- `leadMatch needle hay` holds when `needle` is an initial segment of `hay`. -/
def leadMatch : List Char → List Char → Bool
  | [], _ => true
  | _ :: _, [] => false
  | a :: as, b :: bs => a == b && leadMatch as bs

/-- `subMatch needle hay` holds when `needle` occurs contiguously in `hay`. -/
def subMatch : List Char → List Char → Bool
  | needle, [] => leadMatch needle []
  | needle, b :: bs => leadMatch needle (b :: bs) || subMatch needle bs

/-- JS `hay.includes(needle)`. -/
def strIncludes (hay needle : String) : Bool := subMatch needle.toList hay.toList

/-! ## JS numeric helpers -/

/-- JS `Math.floor` on a rational. -/
def jsFloor (x : ℚ) : ℤ := ⌊x⌋

/-- JS `Math.round` (half goes toward positive infinity). -/
def jsRound (x : ℚ) : ℤ := ⌊x + 1/2⌋

/-- The final-score normalisation both variants apply:
`Math.max(1, Math.min(10, Math.round(s * 10) / 10))`. -/
def clampRoundScore (s : ℚ) : ℚ := max 1 (min 10 ((jsRound (s * 10) : ℚ) / 10))

/-! ## Data model -/

inductive PropertyType
  | rent
  | sale
deriving DecidableEq

inductive BuildingType
  | apartment
  | house
  | studio
  | penthouse
deriving DecidableEq

inductive Condition
  | new
  | renovated
  | good
  | needs_renovation
deriving DecidableEq

inductive Label
  | Underpriced
  | Fair
  | Overpriced
deriving DecidableEq

/-- The `ApartmentData` interface shared by both variants. -/
structure ApartmentData where
  propertyType : PropertyType
  price : ℚ
  size : ℚ
  city : String
  district : String
  exactLocation : String
  rooms : ℚ
  floor : ℚ
  totalFloors : ℚ
  buildingType : BuildingType
  condition : Condition
  yearBuilt : ℚ
  description : String
deriving DecidableEq

/-- The preconditions the `POST` validation enforces before scoring runs:
all fields present (non-empty strings) and the numeric constraints of the
second validation check. -/
def ValidApartment (d : ApartmentData) : Prop :=
  0 < d.price ∧ 0 < d.size ∧ 0 < d.rooms ∧ 0 < d.floor ∧ 0 < d.totalFloors ∧
    1900 < d.yearBuilt ∧ d.city ≠ "" ∧ d.district ≠ "" ∧ d.exactLocation ≠ "" ∧
    d.description ≠ ""

instance (d : ApartmentData) : Decidable (ValidApartment d) := by
  unfold ValidApartment; infer_instance

/-! ## Shared scoring tables

`getExpectedPricePerSqm`, `getRegionalGrowthFactor`, the size-efficiency
band and the label thresholds appear with identical text in both source
files; they are defined once here and referenced by both variants. -/

/-- `getExpectedPricePerSqm` from both sources: expected price per square
meter by case-insensitive substring match on the city, first match wins. -/
def getExpectedPricePerSqm (city : String) (propertyType : PropertyType) : ℚ :=
  let cityLower := lowerStr city
  match propertyType with
  | .rent =>
    if strIncludes cityLower "toshkent shahri" then 8.3
    else if strIncludes cityLower "samarqand" || strIncludes cityLower "buxoro" then 5.5
    else if strIncludes cityLower "namangan" || strIncludes cityLower "andijon" ||
        strIncludes cityLower "nukus" || strIncludes cityLower "qo\x27qon" ||
        strIncludes cityLower "qarshi" || strIncludes cityLower "termiz" then 3.8
    else if strIncludes cityLower "marg\x27ilon" || strIncludes cityLower "urganch" ||
        strIncludes cityLower "navoiy" || strIncludes cityLower "jizzax" ||
        strIncludes cityLower "guliston" || strIncludes cityLower "chirchiq" ||
        strIncludes cityLower "angren" || strIncludes cityLower "bekobod" then 2.8
    else if strIncludes cityLower "toshkent viloyati" then 4.2
    else if strIncludes cityLower "viloyati" || strIncludes cityLower "viloyat" then 2.5
    else if strIncludes cityLower "qoraqalpog" || strIncludes cityLower "karakalpak" then 1.8
    else 3.2
  | .sale =>
    if strIncludes cityLower "toshkent shahri" then 1128
    else if strIncludes cityLower "samarqand" || strIncludes cityLower "buxoro" then 750
    else if strIncludes cityLower "namangan" || strIncludes cityLower "andijon" ||
        strIncludes cityLower "nukus" || strIncludes cityLower "qo\x27qon" ||
        strIncludes cityLower "qarshi" || strIncludes cityLower "termiz" then 550
    else if strIncludes cityLower "marg\x27ilon" || strIncludes cityLower "urganch" ||
        strIncludes cityLower "navoiy" || strIncludes cityLower "jizzax" ||
        strIncludes cityLower "guliston" || strIncludes cityLower "chirchiq" ||
        strIncludes cityLower "angren" || strIncludes cityLower "bekobod" then 420
    else if strIncludes cityLower "toshkent viloyati" then 650
    else if strIncludes cityLower "viloyati" || strIncludes cityLower "viloyat" then 380
    else if strIncludes cityLower "qoraqalpog" || strIncludes cityLower "karakalpak" then 333
    else 450

/-- `getRegionalGrowthFactor` from both sources. -/
def getRegionalGrowthFactor (city : String) : ℚ :=
  let cityLower := lowerStr city
  if strIncludes cityLower "xorazm" || strIncludes cityLower "khorezm" then 0.8
  else if strIncludes cityLower "surxondaryo" || strIncludes cityLower "surkhandarya" then 0.7
  else if strIncludes cityLower "buxoro" || strIncludes cityLower "bukhara" then 0.6
  else if strIncludes cityLower "qashqadaryo" || strIncludes cityLower "kashkadarya" then 0.5
  else if strIncludes cityLower "toshkent shahri" then 0.3
  else if strIncludes cityLower "toshkent viloyati" then 0.2
  else if strIncludes cityLower "samarqand" || strIncludes cityLower "samarkand" then 0.4
  else if strIncludes cityLower "namangan" || strIncludes cityLower "andijon" then 0.3
  else if strIncludes cityLower "navoiy" || strIncludes cityLower "jizzax" ||
      strIncludes cityLower "guliston" || strIncludes cityLower "qarshi" then 0.1
  else if strIncludes cityLower "jizzax viloyati" then -0.3
  else if strIncludes cityLower "sirdaryo viloyati" then -0.4
  else if strIncludes cityLower "qoraqalpog" || strIncludes cityLower "karakalpak" then 0.0
  else 0.1

/-- The square-meters-per-room banding shared by
`calculateSizeEfficiencyScore` (route.ts) and `getSizeEfficiency`
(simple variant), which are textually identical in the two sources. -/
def sqmPerRoomBand (sqmPerRoom : ℚ) : ℚ :=
  if sqmPerRoom ≥ 25 then 9
  else if sqmPerRoom ≥ 20 then 8
  else if sqmPerRoom ≥ 15 then 7
  else if sqmPerRoom ≥ 12 then 6
  else if sqmPerRoom ≥ 10 then 5
  else if sqmPerRoom ≥ 8 then 4
  else 3

/-- The label chain both variants apply to the final score (including the
redundant `≥ 8.0` branch of the sources). -/
def labelFor (finalScore : ℚ) : Label :=
  if finalScore ≥ 8.0 then .Underpriced
  else if finalScore ≥ 6.5 then .Underpriced
  else if finalScore ≥ 4.0 then .Fair
  else .Overpriced

/-! ## Number rendering helpers for the explanation strings -/

/-- Left-pads a digit string with zeros to length `d`. -/
def padZeros (s : String) (d : ℕ) : String :=
  if s.length ≥ d then s else String.mk (List.replicate (d - s.length) '0') ++ s

/-- JS `x.toFixed(d)` for the non-negative rationals this program formats
(rounding half away from zero, which agrees with `toFixed` on them). -/
def jsToFixed (x : ℚ) (d : ℕ) : String :=
  let scaled : ℤ := ⌊x * (10 : ℚ) ^ d + 1/2⌋
  if d = 0 then toString scaled
  else
    let sign := if scaled < 0 then "-" else ""
    let a := scaled.natAbs
    sign ++ toString (a / 10 ^ d) ++ "." ++ padZeros (toString (a % 10 ^ d)) d

/-- Renders a rational the way JS renders the corresponding number inside a
template literal: integers without a decimal point, other values as a
decimal expansion (exact for the decimal fractions this program produces,
truncated at 20 digits otherwise), trailing zeros stripped. -/
def numToString (x : ℚ) : String :=
  if x.den = 1 then toString x.num
  else
    let sign := if x < 0 then "-" else ""
    let a := |x|
    let ip : ℕ := (⌊a⌋).toNat
    let fracDigits : ℕ := (⌊(a - (ip : ℚ)) * (10 : ℚ) ^ (20 : ℕ)⌋).toNat
    let fs := (padZeros (toString fracDigits) 20).toList
    sign ++ toString ip ++ "." ++ String.mk ((fs.reverse.dropWhile (· == '0')).reverse)

/-! ## The extended variant: `src/app/api/analyze/route.ts` -/

namespace Extended

inductive PricePosition
  | lower
  | average
  | higher
deriving DecidableEq

structure PlatformComparison where
  platform : String
  averagePrice : ℚ
  listingsCount : ℤ
  pricePosition : PricePosition
deriving DecidableEq

structure FactorEntry where
  score : ℚ
  reason : String
deriving DecidableEq

structure PriceFactor where
  score : ℚ
  reason : String
  comparison : List PlatformComparison
deriving DecidableEq

structure Factors where
  priceComparison : PriceFactor
  location : FactorEntry
  buildingQuality : FactorEntry
  amenities : FactorEntry
  sizeEfficiency : FactorEntry
deriving DecidableEq

structure PriceRange where
  min : ℚ
  max : ℚ
deriving DecidableEq

structure MarketInsights where
  averagePrice : ℚ
  priceRange : PriceRange
  marketTrend : String
  competition : String
deriving DecidableEq

structure AnalysisResult where
  score : ℚ
  label : Label
  explanation : String
  factors : Factors
  marketInsights : MarketInsights
deriving DecidableEq

/-- `calculatePriceComparisonScore` (route.ts lines 118-129). -/
def calculatePriceComparisonScore (priceRatio : ℚ) : ℚ :=
  if priceRatio < 0.65 then 9.5
  else if priceRatio < 0.75 then 8.5
  else if priceRatio < 0.85 then 7.5
  else if priceRatio < 0.95 then 6.5
  else if priceRatio < 1.05 then 5.5
  else if priceRatio < 1.15 then 4.5
  else if priceRatio < 1.30 then 3.5
  else if priceRatio < 1.50 then 2.5
  else if priceRatio < 2.00 then 1.5
  else 1.0

/-- `getPlatformComparison` (route.ts lines 131-164); the four
`Math.random()` draws are `rng 0` … `rng 3`. -/
def getPlatformComparison (city : String) (propertyType : PropertyType)
    (price size : ℚ) (rng : ℕ → ℚ) : List PlatformComparison :=
  let pricePerSqm := price / size
  let basePrice := getExpectedPricePerSqm city propertyType
  let variance : ℚ := 0.15
  [ { platform := "OLX Uzbekistan"
      averagePrice := basePrice * (1 + variance * 0.5)
      listingsCount := jsFloor (rng 0 * 500 + 200)
      pricePosition :=
        if pricePerSqm < basePrice * 0.9 then .lower
        else if pricePerSqm > basePrice * 1.1 then .higher
        else .average },
    { platform := "We Band"
      averagePrice := basePrice * (1 - variance * 0.3)
      listingsCount := jsFloor (rng 1 * 150 + 50)
      pricePosition :=
        if pricePerSqm < basePrice * 0.85 then .lower
        else if pricePerSqm > basePrice * 1.05 then .higher
        else .average },
    { platform := "Uy.uz"
      averagePrice := basePrice * (1 + variance * 0.2)
      listingsCount := jsFloor (rng 2 * 100 + 30)
      pricePosition :=
        if pricePerSqm < basePrice * 0.88 then .lower
        else if pricePerSqm > basePrice * 1.08 then .higher
        else .average },
    { platform := "Machinuka"
      averagePrice := basePrice * (1 - variance * 0.1)
      listingsCount := jsFloor (rng 3 * 80 + 20)
      pricePosition :=
        if pricePerSqm < basePrice * 0.92 then .lower
        else if pricePerSqm > basePrice * 1.12 then .higher
        else .average } ]

/-- `getLocationScore` (route.ts lines 166-223). -/
def getLocationScore (city district : String) : ℚ :=
  let cityLower := lowerStr city
  let districtLower := lowerStr district
  let baseScore : ℚ :=
    if strIncludes cityLower "toshkent shahri" then 9.8
    else if strIncludes cityLower "toshkent viloyati" then 7.5
    else if strIncludes cityLower "samarqand" || strIncludes cityLower "buxoro" then 8.5
    else if strIncludes cityLower "namangan" || strIncludes cityLower "andijon" ||
        strIncludes cityLower "nukus" || strIncludes cityLower "qo\x27qon" ||
        strIncludes cityLower "qarshi" || strIncludes cityLower "termiz" then 7.2
    else if strIncludes cityLower "marg\x27ilon" || strIncludes cityLower "urganch" ||
        strIncludes cityLower "navoiy" || strIncludes cityLower "jizzax" ||
        strIncludes cityLower "guliston" || strIncludes cityLower "chirchiq" ||
        strIncludes cityLower "angren" || strIncludes cityLower "bekobod" then 6.4
    else if strIncludes cityLower "viloyati" || strIncludes cityLower "viloyat" then 6.0
    else if strIncludes cityLower "qoraqalpog" || strIncludes cityLower "karakalpak" then 4.8
    else if strIncludes cityLower "denov" || strIncludes cityLower "kattaqo\x27rg\x27on" then 5.5
    else 5
  let baseScore :=
    if strIncludes cityLower "toshkent shahri" then
      if strIncludes districtLower "mirobod" || strIncludes districtLower "shayxontohur" ||
          strIncludes districtLower "yakkasaroy" || strIncludes districtLower "chilonzor" ||
          strIncludes districtLower "yunusobod" || strIncludes districtLower "mirzo ulug\x27bek" then
        baseScore + 1.5
      else if strIncludes districtLower "olmazor" || strIncludes districtLower "sirg\x27ali" ||
          strIncludes districtLower "uchtepa" || strIncludes districtLower "yangihayot" then
        baseScore + 0.5
      else if strIncludes districtLower "sergeli" || strIncludes districtLower "bektemir" ||
          strIncludes districtLower "yangiyo\x27l" || strIncludes districtLower "quyichirchiq" ||
          strIncludes districtLower "piskent" || strIncludes districtLower "zangiota" then
        baseScore - 1.2
      else baseScore
    else if strIncludes cityLower "samarqand" then
      if strIncludes districtLower "registon" || strIncludes districtLower "siyob" then
        baseScore + 0.8
      else baseScore
    else if strIncludes cityLower "buxoro" then
      if strIncludes districtLower "poi kalon" || strIncludes districtLower "lyabi hauz" then
        baseScore + 0.8
      else baseScore
    else if strIncludes cityLower "andijon" || strIncludes cityLower "namangan" then
      if strIncludes districtLower "markaz" || strIncludes districtLower "center" then
        baseScore + 0.6
      else baseScore
    else baseScore
  max 1 (min 10 baseScore)

/-- `calculateBuildingQualityScore` (route.ts lines 225-265);
`new Date().getFullYear()` is the `currentYear` parameter. -/
def calculateBuildingQualityScore (buildingType : BuildingType) (condition : Condition)
    (yearBuilt floor totalFloors currentYear : ℚ) : ℚ :=
  let score : ℚ := 5
  let score := score +
    match buildingType with
    | .penthouse => 3.0
    | .house => 2.2
    | .apartment => 1.2
    | .studio => 0.3
  let score := score +
    match condition with
    | .new => 2.5
    | .renovated => 2.0
    | .good => 0.8
    | .needs_renovation => -2.0
  let age := currentYear - yearBuilt
  let score := score +
    (if age ≤ 3 then 2.0
     else if age ≤ 7 then 1.5
     else if age ≤ 15 then 1.0
     else if age ≤ 25 then 0.5
     else if age ≤ 40 then 0.0
     else if age ≤ 60 then -0.8
     else -1.8)
  let score := score +
    (if floor = 1 then -1.0
     else if floor = 2 then 1.2
     else if 3 ≤ floor ∧ floor ≤ 5 then 1.5
     else if 6 ≤ floor ∧ floor ≤ 8 then 1.0
     else if 9 ≤ floor ∧ floor ≤ 12 then 0.3
     else if floor > 12 then -0.5
     else 0)
  let score := score +
    (if 4 ≤ totalFloors ∧ totalFloors ≤ 6 then 0.8
     else if 7 ≤ totalFloors ∧ totalFloors ≤ 9 then 0.5
     else if 10 ≤ totalFloors ∧ totalFloors ≤ 15 then 0.0
     else if totalFloors > 15 then -0.5
     else 0)
  max 1 (min 10 score)

/-- The positive keyword groups of `calculateAmenitiesScore` (route.ts). -/
def positiveAmenities : List (List String × ℚ) :=
  [ (["zamonaviy", "modern", "renovated", "ta\x27mirlangan"], 1.2),
    (["konditsioner", "air conditioning", "ac"], 1.0),
    (["internet", "wi-fi", "wifi"], 0.8),
    (["balkon", "balcony", "terrace", "terrasa"], 0.8),
    (["parking", "garage", "mashina joyi"], 0.8),
    (["lift", "elevator"], 0.6),
    (["security", "xavfsizlik", "guard"], 0.6),
    (["gym", "fitness", "sport"], 0.8),
    (["pool", "basseyn", "rooftop"], 1.0),
    (["dishwasher", "posuda yuvish mashinasi"], 0.5),
    (["washing machine", "kir yuvish mashinasi"], 0.5),
    (["furnished", "mebellar bilan"], 0.7),
    (["metro", "metroga yaqin"], 0.6),
    (["school", "maktab", "university", "universitet"], 0.4),
    (["hospital", "shifoxona", "clinic"], 0.4),
    (["market", "bozor", "supermarket"], 0.3) ]

/-- The negative keyword groups of `calculateAmenitiesScore` (route.ts). -/
def negativeIndicators : List (List String × ℚ) :=
  [ (["needs work", "fixer", "ta\x27mirga muhtoj"], -1.2),
    (["noisy", "loud", "shovqinli"], -0.8),
    (["small", "cramped", "kichik"], -0.6),
    (["old", "eski", "qadimiy"], -0.4),
    (["dirty", "kir", "iflos"], -0.8),
    (["broken", "buzilgan", "ishlamaydi"], -0.6) ]

/-- `calculateAmenitiesScore` (route.ts lines 267-312). -/
def calculateAmenitiesScore (description : String) : ℚ :=
  let descLower := lowerStr description
  let score : ℚ := 5
  let score := positiveAmenities.foldl
    (fun s kw => if kw.1.any (fun k => strIncludes descLower k) then s + kw.2 else s) score
  let score := negativeIndicators.foldl
    (fun s kw => if kw.1.any (fun k => strIncludes descLower k) then s + kw.2 else s) score
  max 1 (min 10 score)

/-- `calculateSizeEfficiencyScore` (route.ts lines 314-326). -/
def calculateSizeEfficiencyScore (size rooms : ℚ) : ℚ :=
  if rooms = 0 then 3
  else sqmPerRoomBand (size / rooms)

/-- `generateDetailedExplanation` (route.ts lines 382-414). -/
def generateDetailedExplanation (score : ℚ) (label : Label) (priceRatio : ℚ)
    (city district : String) (size rooms : ℚ) (propertyType : PropertyType)
    (buildingType : BuildingType) (condition : Condition)
    (platformComparison : List PlatformComparison) : String :=
  let propertyTypeText := match propertyType with | .rent => "ijara" | .sale => "sotib olish"
  let priceText := match propertyType with | .rent => "ijara haqi" | .sale => "narx"
  let buildingTypeText :=
    match buildingType with
    | .apartment => "kvartira"
    | .house => "uy"
    | .studio => "studiya"
    | .penthouse => "pentxaus"
  let conditionText :=
    match condition with
    | .new => "yangi"
    | .renovated => "ta\x27mirlangan"
    | .good => "yaxshi"
    | .needs_renovation => "ta\x27mirga muhtoj"
  let olxPrice :=
    (((platformComparison.find? (fun p => p.platform == "OLX Uzbekistan")).map
      (fun p => p.averagePrice)).getD 0)
  let priceDiff :=
    if priceRatio > 1 then jsToFixed ((priceRatio - 1) * 100) 0
    else jsToFixed ((1 - priceRatio) * 100) 0
  match label with
  | .Underpriced =>
    "ðŸŽ¯ Bu " ++ propertyTypeText ++ " mulki " ++ city ++ " shahrida " ++ district ++
      " tumani uchun mukammal imkoniyatdir. " ++ numToString size ++ "mÂ² maydon va " ++
      numToString rooms ++ " xonali " ++ buildingTypeText ++ " " ++ conditionText ++
      " holatda bo\x27lib, " ++ priceText ++ " bozor narxidan " ++ priceDiff ++
      "% pastdir. Xoch-platforma tahlili shuni ko\x27rsatadiki, OLX va We Band platformalaridagi o\x27xshash mulklar o\x27rtacha $" ++
      jsToFixed olxPrice 0 ++
      "/mÂ² narxda savdo qilmoqda, bu esa sizni juda foydali bitimga olib keladi. " ++
      district ++ " tumanidagi joylashuv va mulkning sharoitlari investitsiya qiymatini oshiradi."
  | .Fair =>
    "âš–ï¸ Bu " ++ propertyTypeText ++ " mulki " ++ city ++
      " shahridagi o\x27rtacha bozor narxiga ega. " ++ numToString size ++ "mÂ² maydon va " ++
      numToString rooms ++ " xonali " ++ buildingTypeText ++ " " ++ conditionText ++
      " holatda bo\x27lib, " ++ priceText ++
      " hudud uchun adolatli va mos keladi. Xoch-platforma tahlili shuni ko\x27rsatadiki, OLX ($" ++
      jsToFixed olxPrice 0 ++
      "/mÂ²) va boshqa platformalardagi narxlar bilan mos keladi. " ++ district ++
      " tumanidagi joylashuv va mulkning sharoitlari uning qiymatini to\x27g'ri aks ettiradi."
  | .Overpriced =>
    "âš ï¸ Bu " ++ propertyTypeText ++ " mulki " ++ city ++
      " shahridagi bozor narxidan " ++ priceDiff ++ "% yuqori narxlangan. " ++
      numToString size ++ "mÂ² maydon va " ++ numToString rooms ++ " xonali " ++
      buildingTypeText ++ " " ++ conditionText ++ " holatda bo\x27lsa-da, " ++ priceText ++
      " bozor standartlaridan yuqori. Xoch-platforma tahlili shuni ko\x27rsatadiki, OLX va boshqa platformalarda shunga o\x27xshash mulklar $" ++
      jsToFixed olxPrice 0 ++
      "/mÂ² narxda savdo qilmoqda. Muzokara qilish yoki boshqa joylarda yaxshiroq bitim qidirish tavsiya etiladi."

/-- `generatePriceReason` (route.ts lines 416-427). -/
def generatePriceReason (priceRatio expectedPricePerSqm : ℚ) (city : String) : String :=
  let pricePerSqm := priceRatio * expectedPricePerSqm
  let diffPercent :=
    if priceRatio > 1 then jsToFixed ((priceRatio - 1) * 100) 0
    else jsToFixed ((1 - priceRatio) * 100) 0
  if priceRatio < 0.85 then
    "Narx bozor o'rtachasidan " ++ diffPercent ++ "% past. " ++ city ++
      " shahridagi shunga o'xshash mulklar uchun $" ++ jsToFixed expectedPricePerSqm 2 ++
      "/mÂ² kutilmoqda, ammo bu mulk $" ++ jsToFixed pricePerSqm 2 ++
      "/mÂ². Bu ajoyib imkoniyat."
  else if priceRatio ≤ 1.15 then
    "Narx bozor o'rtachasiga mos keladi. " ++ city ++
      " shahridagi shunga o'xshash mulklar uchun $" ++ jsToFixed expectedPricePerSqm 2 ++
      "/mÂ² kutilmoqda, bu mulk esa $" ++ jsToFixed pricePerSqm 2 ++ "/mÂ². Narx adolatli."
  else
    "Narx bozor o'rtachasidan " ++ diffPercent ++ "% yuqori. " ++ city ++
      " shahridagi shunga o'xshash mulklar uchun $" ++ jsToFixed expectedPricePerSqm 2 ++
      "/mÂ² kutilmoqda, ammo bu mulk $" ++ jsToFixed pricePerSqm 2 ++
      "/mÂ². Narx qimmat ko'rinadi."

/-- `generateLocationReason` (route.ts lines 429-437). -/
def generateLocationReason (city district : String) (score : ℚ) : String :=
  if score ≥ 8 then
    city ++ " shahridagi " ++ district ++
      " tumani yaxshi hududda joylashgan. Bu hudud infratuzilma va qulayliklar bo'yicha yuqori baholangan."
  else if score ≥ 6 then
    city ++ " shahridagi " ++ district ++
      " tumani o'rtacha hududda joylashgan. Bu hudud infratuzilma va qulayliklar bo'yicha qoniqarli."
  else
    city ++ " shahridagi " ++ district ++
      " tumani kamroq talabga ega hududda joylashgan. Hudud infratuzilmasi rivojlanishida muvaffaqiyatli bo'lishi mumkin."

/-- `generateBuildingReason` (route.ts lines 439-458). -/
def generateBuildingReason (buildingType : BuildingType) (condition : Condition)
    (yearBuilt floor totalFloors currentYear : ℚ) : String :=
  let buildingTypeText :=
    match buildingType with
    | .apartment => "kvartira"
    | .house => "uy"
    | .studio => "studiya"
    | .penthouse => "pentxaus"
  let conditionText :=
    match condition with
    | .new => "yangi"
    | .renovated => "ta\x27mirlangan"
    | .good => "yaxshi"
    | .needs_renovation => "ta\x27mirga muhtoj"
  let age := currentYear - yearBuilt
  let reason := "Bu " ++ buildingTypeText ++ " " ++ conditionText ++ " holatda, " ++
    numToString yearBuilt ++ "-yilda qurilgan."
  let reason := reason ++
    (if age ≤ 5 then " Yangi bino, zamonaviy qurilish standartlari."
     else if age ≤ 15 then " Bino yaxshi holatda."
     else " Bino " ++ numToString age ++ " yil, umumiy holati " ++ conditionText ++ ".")
  let reason := reason ++
    (if floor = 1 then " Birinchi qavat - ba\x27zi xaridorlar uchun kamroq qulay."
     else if 2 ≤ floor ∧ floor ≤ 5 then " Optimal qavat - yaxshi qulaylik."
     else " " ++ numToString floor ++ "/" ++ numToString totalFloors ++
       " qavat - qulayliklarga qarab baholanadi.")
  reason

/-- The alternatives of the amenity-counting regex in
`generateAmenitiesReason` (route.ts line 461). -/
def amenityRegexAlts : List (List Char) :=
  ["konditsioner", "internet", "balkon", "parking", "lift", "security", "gym",
    "pool", "furnished", "metro", "school", "hospital", "market"].map String.toList

/-- Length of the first regex alternative matching at the head of `hay`. -/
def altMatchLen (alts : List (List Char)) (hay : List Char) : Option ℕ :=
  alts.findSome? fun a => if leadMatch a hay then some a.length else none

/-- Number of non-overlapping matches of the alternation `alts` in `hay`,
scanning left to right as a JS global regex does. -/
def countMatches (alts : List (List Char)) : List Char → ℕ
  | [] => 0
  | c :: rest =>
    match altMatchLen alts (c :: rest) with
    | some n => 1 + countMatches alts (rest.drop (n - 1))
    | none => countMatches alts rest
termination_by l => l.length
decreasing_by
  · simp only [List.length_cons, List.length_drop]
    omega
  · simp only [List.length_cons]
    omega

/-- `generateAmenitiesReason` (route.ts lines 460-470); the `/gi` regex is
modelled as a case-insensitive left-to-right scan over the description. -/
def generateAmenitiesReason (description : String) (score : ℚ) : String :=
  let amenityCount := countMatches amenityRegexAlts (lowerStr description).toList
  if score ≥ 7 then
    "Mulk ko'plab qulayliklarga ega. Tavsifda " ++ toString amenityCount ++
      " ta ijobiy omil topildi: " ++ String.mk (description.toList.take 100) ++
      "... Bu mulkning qulayligini oshiradi."
  else if score ≥ 5 then
    "Mulk o'rtacha qulayliklarga ega. Tavsifda " ++ toString amenityCount ++
      " ta ijobiy omil topildi. Qo'shimcha qulayliklar qiymatini oshirishi mumkin."
  else
    "Mulk kam qulayliklarga ega. Tavsifda " ++ toString amenityCount ++
      " ta ijobiy omil topildi. Qulayliklarga e'tibor berish tavsiya etiladi."

/-- `generateSizeReason` (route.ts lines 472-482). -/
def generateSizeReason (size rooms score : ℚ) : String :=
  let sqmPerRoom := size / rooms
  if score ≥ 7 then
    "Maydon juda samarali: " ++ numToString size ++ "mÂ² / " ++ numToString rooms ++
      " xona = " ++ jsToFixed sqmPerRoom 1 ++ "mÂ² per xona. Bu hudud uchun keng va qulay."
  else if score ≥ 5 then
    "Maydon o'rtacha samaradorlikka ega: " ++ numToString size ++ "mÂ² / " ++
      numToString rooms ++ " xona = " ++ jsToFixed sqmPerRoom 1 ++ "mÂ² per xona. Qoniqarli."
  else
    "Maydon samaradorligi past: " ++ numToString size ++ "mÂ² / " ++ numToString rooms ++
      " xona = " ++ jsToFixed sqmPerRoom 1 ++ "mÂ² per xona. Ushbu maydon " ++
      numToString rooms ++ " xona uchun kichik."

/-- `getMarketTrend` (route.ts lines 499-511). -/
def getMarketTrend (city : String) : String :=
  let cityLower := lowerStr city
  if strIncludes cityLower "xorazm" || strIncludes cityLower "surxondaryo" ||
      strIncludes cityLower "buxoro" then
    "O\x27sib bormoqda - narxlar so\x27nggi yilda 14-21% oshdi"
  else if strIncludes cityLower "toshkent shahri" || strIncludes cityLower "samarqand" then
    "Barqaror o\x27sish - narxlar so\x27nggi yilda 4-5% oshdi"
  else if strIncludes cityLower "jizzax viloyati" || strIncludes cityLower "sirdaryo viloyati" then
    "Kamayib bormoqda - bitimlar soni kamaymoqda"
  else
    "Barqaror - narxlar o\x27zgarmayapti"

/-- `getCompetitionLevel` (route.ts lines 513-523). -/
def getCompetitionLevel (city : String) (propertyType : PropertyType) : String :=
  let cityLower := lowerStr city
  if strIncludes cityLower "toshkent shahri" then
    "Yuqori - ko\x27plab takliflar bor, tanlov keng"
  else if strIncludes cityLower "samarqand" || strIncludes cityLower "buxoro" ||
      strIncludes cityLower "namangan" || strIncludes cityLower "andijon" then
    "O\x27rtacha - yetarlicha takliflar bor"
  else
    "Past - takliflar soni kam, tanlov cheklangan"

/-- `generateMarketInsights` (route.ts lines 484-497). -/
def generateMarketInsights (city : String) (propertyType : PropertyType)
    (price size : ℚ) : MarketInsights :=
  let expectedPricePerSqm := getExpectedPricePerSqm city propertyType
  { averagePrice := expectedPricePerSqm
    priceRange := { min := expectedPricePerSqm * 0.8, max := expectedPricePerSqm * 1.2 }
    marketTrend := getMarketTrend city
    competition := getCompetitionLevel city propertyType }

/-- `analyzeApartment` of the extended variant (route.ts lines 45-116). -/
def analyzeApartment (data : ApartmentData) (currentYear : ℚ) (rng : ℕ → ℚ) :
    AnalysisResult :=
  let pricePerSqm := data.price / data.size
  let expectedPricePerSqm := getExpectedPricePerSqm data.city data.propertyType
  let priceRatio := pricePerSqm / expectedPricePerSqm
  let priceComparisonScore := calculatePriceComparisonScore priceRatio
  let locationScore := getLocationScore data.city data.district
  let buildingQualityScore := calculateBuildingQualityScore data.buildingType data.condition
    data.yearBuilt data.floor data.totalFloors currentYear
  let amenitiesScore := calculateAmenitiesScore data.description
  let sizeEfficiencyScore := calculateSizeEfficiencyScore data.size data.rooms
  let platformComparison := getPlatformComparison data.city data.propertyType
    data.price data.size rng
  let finalScore := 5 + (priceComparisonScore - 5) * 0.45 + (locationScore - 5) * 0.30 +
    (buildingQualityScore - 5) * 0.15 + (amenitiesScore - 5) * 0.02 +
    (sizeEfficiencyScore - 5) * 0.08
  let regionalGrowthFactor := getRegionalGrowthFactor data.city
  let finalScore := finalScore + regionalGrowthFactor
  let finalScore := clampRoundScore finalScore
  let label := labelFor finalScore
  { score := finalScore
    label := label
    explanation := generateDetailedExplanation finalScore label priceRatio data.city
      data.district data.size data.rooms data.propertyType data.buildingType
      data.condition platformComparison
    factors :=
      { priceComparison :=
          { score := priceComparisonScore
            reason := generatePriceReason priceRatio expectedPricePerSqm data.city
            comparison := platformComparison }
        location :=
          { score := locationScore
            reason := generateLocationReason data.city data.district locationScore }
        buildingQuality :=
          { score := buildingQualityScore
            reason := generateBuildingReason data.buildingType data.condition
              data.yearBuilt data.floor data.totalFloors currentYear }
        amenities :=
          { score := amenitiesScore
            reason := generateAmenitiesReason data.description amenitiesScore }
        sizeEfficiency :=
          { score := sizeEfficiencyScore
            reason := generateSizeReason data.size data.rooms sizeEfficiencyScore } }
    marketInsights := generateMarketInsights data.city data.propertyType data.price data.size }

end Extended

/-! ## The POST handlers

Both files carry the identical two-step validation: a JS-truthiness check
on every field (`!data.price || …`, so a missing field, an empty string or
a zero number all fail it), then the numeric-range check.  A request body
is modelled with one `Option` per field (`none` = the key is missing from
the JSON). -/

structure RawBody where
  propertyType : Option PropertyType
  price : Option ℚ
  size : Option ℚ
  city : Option String
  district : Option String
  exactLocation : Option String
  rooms : Option ℚ
  floor : Option ℚ
  totalFloors : Option ℚ
  buildingType : Option BuildingType
  condition : Option Condition
  yearBuilt : Option ℚ
  description : Option String

/-- JS falsiness of an optional number: missing or zero. -/
def numFalsy (o : Option ℚ) : Bool := o.elim true (· == 0)

/-- JS falsiness of an optional string: missing or empty. -/
def strFalsy (o : Option String) : Bool := o.elim true (· == "")

/-- JS falsiness of an optional enum field: missing. -/
def enumFalsy {α : Type} (o : Option α) : Bool := o.isNone

/-- The first validation check of both `POST` handlers:
`!data.propertyType || !data.price || … || !data.description`. -/
def anyFieldMissing (b : RawBody) : Bool :=
  enumFalsy b.propertyType || numFalsy b.price || numFalsy b.size || strFalsy b.city ||
    strFalsy b.district || strFalsy b.exactLocation || numFalsy b.rooms ||
    numFalsy b.floor || numFalsy b.totalFloors || enumFalsy b.buildingType ||
    enumFalsy b.condition || numFalsy b.yearBuilt || strFalsy b.description

/-- The apartment record the handler passes to the scorer once the
truthiness check has ruled out every `none`. -/
def toData (b : RawBody) : ApartmentData :=
  { propertyType := b.propertyType.getD .rent
    price := b.price.getD 0
    size := b.size.getD 0
    city := b.city.getD ""
    district := b.district.getD ""
    exactLocation := b.exactLocation.getD ""
    rooms := b.rooms.getD 0
    floor := b.floor.getD 0
    totalFloors := b.totalFloors.getD 0
    buildingType := b.buildingType.getD .apartment
    condition := b.condition.getD .new
    yearBuilt := b.yearBuilt.getD 0
    description := b.description.getD "" }

/-- The second validation check of both `POST` handlers. -/
def validNumbersFail (d : ApartmentData) : Prop :=
  d.price ≤ 0 ∨ d.size ≤ 0 ∨ d.rooms ≤ 0 ∨ d.floor ≤ 0 ∨ d.totalFloors ≤ 0 ∨
    d.yearBuilt ≤ 1900

instance (d : ApartmentData) : Decidable (validNumbersFail d) := by
  unfold validNumbersFail; infer_instance

/-- The 400 message of the first validation check. -/
def errRequired : String := "Barcha maydonlar to\x27ldirilishi shart"

/-- The 400 message of the second validation check. -/
def errPositive : String := "Narx, maydon, xonalar, qavat va qurilgan yil musbat raqam bo\x27lishi kerak"

namespace Extended

/-- Outcome of the extended `POST` handler: an HTTP 400 with a localized
message, or a 200 carrying the analysis.  The scorer is applied only when
building the `ok` branch, so a `badRequest` outcome is one in which the
scorer was never invoked. -/
inductive PostResult
  | badRequest (error : String)
  | ok (result : AnalysisResult)

/-- `POST` of route.ts (lines 525-556) minus the artificial delay. -/
def POST (b : RawBody) (currentYear : ℚ) (rng : ℕ → ℚ) : PostResult :=
  if anyFieldMissing b then .badRequest errRequired
  else if validNumbersFail (toData b) then .badRequest errPositive
  else .ok (analyzeApartment (toData b) currentYear rng)

end Extended

/-! ## The simple variant: `src/unnamed/part_001` -/

namespace Simple

structure AnalysisResult where
  score : ℚ
  label : Label
  explanation : String
deriving DecidableEq

/-- `getLocationScore` of the simple variant (part_001 lines 124-211);
identical to the extended one except that the `andijon` and `namangan`
district adjustments are two separate branches in the source. -/
def getLocationScore (city district : String) : ℚ :=
  let cityLower := lowerStr city
  let districtLower := lowerStr district
  let baseScore : ℚ :=
    if strIncludes cityLower "toshkent shahri" then 9.8
    else if strIncludes cityLower "toshkent viloyati" then 7.5
    else if strIncludes cityLower "samarqand" || strIncludes cityLower "buxoro" then 8.5
    else if strIncludes cityLower "namangan" || strIncludes cityLower "andijon" ||
        strIncludes cityLower "nukus" || strIncludes cityLower "qo\x27qon" ||
        strIncludes cityLower "qarshi" || strIncludes cityLower "termiz" then 7.2
    else if strIncludes cityLower "marg\x27ilon" || strIncludes cityLower "urganch" ||
        strIncludes cityLower "navoiy" || strIncludes cityLower "jizzax" ||
        strIncludes cityLower "guliston" || strIncludes cityLower "chirchiq" ||
        strIncludes cityLower "angren" || strIncludes cityLower "bekobod" then 6.4
    else if strIncludes cityLower "viloyati" || strIncludes cityLower "viloyat" then 6.0
    else if strIncludes cityLower "qoraqalpog" || strIncludes cityLower "karakalpak" then 4.8
    else if strIncludes cityLower "denov" || strIncludes cityLower "kattaqo\x27rg\x27on" then 5.5
    else 5
  let baseScore :=
    if strIncludes cityLower "toshkent shahri" then
      if strIncludes districtLower "mirobod" || strIncludes districtLower "shayxontohur" ||
          strIncludes districtLower "yakkasaroy" || strIncludes districtLower "chilonzor" ||
          strIncludes districtLower "yunusobod" || strIncludes districtLower "mirzo ulug\x27bek" then
        baseScore + 1.5
      else if strIncludes districtLower "olmazor" || strIncludes districtLower "sirg\x27ali" ||
          strIncludes districtLower "uchtepa" || strIncludes districtLower "yangihayot" then
        baseScore + 0.5
      else if strIncludes districtLower "sergeli" || strIncludes districtLower "bektemir" ||
          strIncludes districtLower "yangiyo\x27l" || strIncludes districtLower "quyichirchiq" ||
          strIncludes districtLower "piskent" || strIncludes districtLower "zangiota" then
        baseScore - 1.2
      else baseScore
    else if strIncludes cityLower "samarqand" then
      if strIncludes districtLower "registon" || strIncludes districtLower "siyob" then
        baseScore + 0.8
      else baseScore
    else if strIncludes cityLower "buxoro" then
      if strIncludes districtLower "poi kalon" || strIncludes districtLower "lyabi hauz" then
        baseScore + 0.8
      else baseScore
    else if strIncludes cityLower "andijon" then
      if strIncludes districtLower "markaz" || strIncludes districtLower "center" then
        baseScore + 0.6
      else baseScore
    else if strIncludes cityLower "namangan" then
      if strIncludes districtLower "markaz" || strIncludes districtLower "center" then
        baseScore + 0.6
      else baseScore
    else baseScore
  max 1 (min 10 baseScore)

/-- `getMarketVolatilityFactor` (part_001 lines 269-309). -/
def getMarketVolatilityFactor (city : String) (propertyType : PropertyType) : ℚ :=
  let cityLower := lowerStr city
  if strIncludes cityLower "toshkent shahri" then
    match propertyType with | .rent => 0.3 | .sale => 0.2
  else if strIncludes cityLower "xorazm" || strIncludes cityLower "surxondaryo" ||
      strIncludes cityLower "buxoro" || strIncludes cityLower "qashqadaryo" then
    match propertyType with | .rent => 0.1 | .sale => 0.0
  else if strIncludes cityLower "samarqand" || strIncludes cityLower "namangan" ||
      strIncludes cityLower "andijon" || strIncludes cityLower "toshkent viloyati" then
    match propertyType with | .rent => 0.0 | .sale => -0.1
  else if strIncludes cityLower "navoiy" || strIncludes cityLower "jizzax" ||
      strIncludes cityLower "guliston" || strIncludes cityLower "qarshi" then
    match propertyType with | .rent => -0.1 | .sale => -0.2
  else if strIncludes cityLower "sirdaryo viloyati" || strIncludes cityLower "jizzax viloyati" then
    match propertyType with | .rent => -0.2 | .sale => -0.3
  else if strIncludes cityLower "qoraqalpog" || strIncludes cityLower "karakalpak" then
    match propertyType with | .rent => -0.1 | .sale => -0.1
  else 0.0

/-- `getSizeEfficiency` (part_001 lines 311-323), textually identical to
`calculateSizeEfficiencyScore` of route.ts. -/
def getSizeEfficiency (size rooms : ℚ) : ℚ :=
  if rooms = 0 then 3
  else sqmPerRoomBand (size / rooms)

/-- `getAmenityScore` (part_001 lines 325-356); the duplicated
`includes('lift')` of line 335 collapses into one check. -/
def getAmenityScore (description : String) : ℚ :=
  let descLower := lowerStr description
  let score : ℚ := 5
  let score := score + (if strIncludes descLower "zamonaviy" || strIncludes descLower "modern" ||
    strIncludes descLower "renovated" || strIncludes descLower "ta\x27mirlangan" then 1.2 else 0)
  let score := score + (if strIncludes descLower "konditsioner" ||
    strIncludes descLower "air conditioning" || strIncludes descLower "ac" then 1 else 0)
  let score := score + (if strIncludes descLower "internet" || strIncludes descLower "wi-fi" ||
    strIncludes descLower "wifi" then 0.8 else 0)
  let score := score + (if strIncludes descLower "balkon" || strIncludes descLower "balcony" ||
    strIncludes descLower "terrace" || strIncludes descLower "terrasa" then 0.8 else 0)
  let score := score + (if strIncludes descLower "parking" || strIncludes descLower "garage" ||
    strIncludes descLower "mashina joyi" then 0.8 else 0)
  let score := score + (if strIncludes descLower "lift" || strIncludes descLower "elevator" ||
    strIncludes descLower "lift" then 0.6 else 0)
  let score := score + (if strIncludes descLower "security" || strIncludes descLower "xavfsizlik" ||
    strIncludes descLower "guard" then 0.6 else 0)
  let score := score + (if strIncludes descLower "gym" || strIncludes descLower "fitness" ||
    strIncludes descLower "sport" then 0.8 else 0)
  let score := score + (if strIncludes descLower "pool" || strIncludes descLower "basseyn" ||
    strIncludes descLower "rooftop" then 1 else 0)
  let score := score + (if strIncludes descLower "dishwasher" ||
    strIncludes descLower "posuda yuvish mashinasi" then 0.5 else 0)
  let score := score + (if strIncludes descLower "washing machine" ||
    strIncludes descLower "kir yuvish mashinasi" then 0.5 else 0)
  let score := score + (if strIncludes descLower "furnished" ||
    strIncludes descLower "mebellar bilan" then 0.7 else 0)
  let score := score + (if strIncludes descLower "metro" ||
    strIncludes descLower "metroga yaqin" then 0.6 else 0)
  let score := score + (if strIncludes descLower "school" || strIncludes descLower "maktab" ||
    strIncludes descLower "university" || strIncludes descLower "universitet" then 0.4 else 0)
  let score := score + (if strIncludes descLower "hospital" || strIncludes descLower "shifoxona" ||
    strIncludes descLower "clinic" then 0.4 else 0)
  let score := score + (if strIncludes descLower "market" || strIncludes descLower "bozor" ||
    strIncludes descLower "supermarket" then 0.3 else 0)
  let score := score + (if strIncludes descLower "needs work" || strIncludes descLower "fixer" ||
    strIncludes descLower "ta\x27mirga muhtoj" then -1.2 else 0)
  let score := score + (if strIncludes descLower "noisy" || strIncludes descLower "loud" ||
    strIncludes descLower "shovqinli" then -0.8 else 0)
  let score := score + (if strIncludes descLower "small" || strIncludes descLower "cramped" ||
    strIncludes descLower "kichik" then -0.6 else 0)
  let score := score + (if strIncludes descLower "old" || strIncludes descLower "eski" ||
    strIncludes descLower "qadimiy" then -0.4 else 0)
  let score := score + (if strIncludes descLower "dirty" || strIncludes descLower "kir" ||
    strIncludes descLower "iflos" then -0.8 else 0)
  let score := score + (if strIncludes descLower "broken" || strIncludes descLower "buzilgan" ||
    strIncludes descLower "ishlamaydi" then -0.6 else 0)
  max 1 (min 10 score)

/-- `getBuildingScore` (part_001 lines 453-546): the extended building
score plus the construction-era block of lines 534-543. -/
def getBuildingScore (buildingType : BuildingType) (condition : Condition)
    (yearBuilt floor totalFloors currentYear : ℚ) : ℚ :=
  let score : ℚ := 5
  let score := score +
    match buildingType with
    | .penthouse => 3.0
    | .house => 2.2
    | .apartment => 1.2
    | .studio => 0.3
  let score := score +
    match condition with
    | .new => 2.5
    | .renovated => 2.0
    | .good => 0.8
    | .needs_renovation => -2.0
  let age := currentYear - yearBuilt
  let score := score +
    (if age ≤ 3 then 2.0
     else if age ≤ 7 then 1.5
     else if age ≤ 15 then 1.0
     else if age ≤ 25 then 0.5
     else if age ≤ 40 then 0.0
     else if age ≤ 60 then -0.8
     else -1.8)
  let score := score +
    (if floor = 1 then -1.0
     else if floor = 2 then 1.2
     else if 3 ≤ floor ∧ floor ≤ 5 then 1.5
     else if 6 ≤ floor ∧ floor ≤ 8 then 1.0
     else if 9 ≤ floor ∧ floor ≤ 12 then 0.3
     else if floor > 12 then -0.5
     else 0)
  let score := score +
    (if 4 ≤ totalFloors ∧ totalFloors ≤ 6 then 0.8
     else if 7 ≤ totalFloors ∧ totalFloors ≤ 9 then 0.5
     else if 10 ≤ totalFloors ∧ totalFloors ≤ 15 then 0.0
     else if totalFloors > 15 then -0.5
     else 0)
  let score := score +
    (if yearBuilt ≥ 2010 then (if totalFloors ≥ 5 then 0.3 else 0)
     else if yearBuilt ≥ 1990 then 0.1
     else if yearBuilt ≥ 1970 then -0.2
     else 0)
  max 1 (min 10 score)

/-- The piecewise price-ratio contribution inlined in `analyzeApartment`
of the simple variant (part_001 lines 56-74). -/
def priceBandDelta (priceRatio : ℚ) : ℚ :=
  if priceRatio < 0.65 then 3.5
  else if priceRatio < 0.8 then 2.8
  else if priceRatio < 0.9 then 2.0
  else if priceRatio < 1.0 then 1.2
  else if priceRatio < 1.1 then 0.2
  else if priceRatio < 1.25 then -1.0
  else if priceRatio < 1.5 then -2.5
  else if priceRatio < 2.0 then -4.0
  else -5.5

/-- The accumulated `baseScore` of the simple variant's
`analyzeApartment` just before clamping (part_001 lines 47-97); `jitRand`
is the `Math.random()` draw of line 96, so the jitter term is
`(jitRand - 0.5) * 0.6`. -/
def baseScoreOf (data : ApartmentData) (currentYear jitRand : ℚ) : ℚ :=
  5 + priceBandDelta (data.price / data.size /
      getExpectedPricePerSqm data.city data.propertyType)
    + getMarketVolatilityFactor data.city data.propertyType
    + (getLocationScore data.city data.district - 5) * 0.65
    + (getBuildingScore data.buildingType data.condition data.yearBuilt data.floor
        data.totalFloors currentYear - 5) * 0.35
    + (getSizeEfficiency data.size data.rooms - 5) * 0.25
    + (getAmenityScore data.description - 5) * 0.1
    + getRegionalGrowthFactor data.city
    + (jitRand - 0.5) * 0.6

/-- `generateExplanation` (part_001 lines 548-589); `tplRand` is the
`Math.random()` draw of the template selection on line 588. -/
def generateExplanation (score : ℚ) (label : Label) (priceRatio : ℚ)
    (city district : String) (size rooms : ℚ) (propertyType : PropertyType)
    (buildingType : BuildingType) (condition : Condition) (tplRand : ℚ) : String :=
  let propertyTypeText := match propertyType with | .rent => "ijara" | .sale => "sotib olish"
  let priceText := match propertyType with | .rent => "ijara haqi" | .sale => "narx"
  let buildingTypeText :=
    match buildingType with
    | .apartment => "kvartira"
    | .house => "uy"
    | .studio => "studiya"
    | .penthouse => "pentxaus"
  let conditionText :=
    match condition with
    | .new => "yangi"
    | .renovated => "ta\x27mirlangan"
    | .good => "yaxshi"
    | .needs_renovation => "ta\x27mirga muhtoj"
  let labelExplanations : List String :=
    match label with
    | .Underpriced =>
      [ "Bu " ++ propertyTypeText ++ " mulki " ++ city ++ " shahrida bozor narxidan " ++
          (if priceRatio < 0.7 then "sezilarli darajada past" else "past") ++
          " narxda ajoyib qiymat taklif etadi. " ++ numToString size ++ "m² maydon va " ++
          numToString rooms ++ " xonali " ++ buildingTypeText ++
          " O'zbekiston ko'chmas mulk bozorida aqlli investitsiya imkoniyatini ifodalaydi. " ++
          conditionText ++ " holat va " ++ district ++
          " tumanidagi joylashuv uning qiymatini oshiradi.",
        city ++ " shahrida yashirin durdona topdingiz! " ++ priceText ++
          " odatdagi bozor narxlaridan ancha past, bu hozirgi O'zbekiston bozorida maydon va joylashuv uchun ajoyib bitim. " ++
          buildingTypeText ++ " turi va " ++ conditionText ++
          " holat uning raqobatbardoshligini ta'minlaydi.",
        "Bu kamdan-kam uchraydigan imkoniyat - " ++ priceText ++ " " ++ city ++
          " shahridagi shunga o'xshash mulklarga nisbatan " ++
          (if priceRatio < 0.7 then "sezilarli darajada" else "seziladi") ++
          " past. O'zbekiston ko'chmas mulki uchun qiymat taklifi ajoyib. " ++ district ++
          " tumanidagi joylashuv va " ++ conditionText ++
          " holat uning investitsiya qiymatini oshiradi." ]
    | .Fair =>
      [ priceText ++ " " ++ city ++ " shahri uchun bozor kutishlariga mos keladi. " ++
          numToString size ++ "m² maydon va " ++ numToString rooms ++ " xonali " ++
          buildingTypeText ++
          " bilan siz O'zbekistonning hozirgi bozorida hudud uchun adolatli qiymat olasiz. " ++
          conditionText ++ " holat va " ++ district ++
          " tumanidagi joylashuv uning bozor qiymatini belgilaydi.",
        "Bu " ++ propertyTypeText ++ " mulki " ++ city ++
          " uchun o'rtacha qiymat taklif etadi. Narx O'zbekistonda hozirgi bozor sharoitlarini aks ettiradi, hech qanday sezilarli ustama yoki chegirma yo'q. " ++
          buildingTypeText ++ " turi va " ++ conditionText ++
          " holat uning bozor qiymatini to'g'ri aks ettiradi.",
        priceText ++ " " ++ city ++
          " shahridagi shunga o'xshash mulklar bilan mos keladi. Siz O'zbekiston bozorida " ++
          numToString size ++ "m² maydon va " ++ numToString rooms ++ " xonali " ++
          buildingTypeText ++ " uchun bozor narxini to'layapsiz. " ++ district ++
          " tumanidagi joylashuv va " ++ conditionText ++
          " holat uning qiymatini belgilaydi." ]
    | .Overpriced =>
      [ priceText ++ " " ++ city ++ " shahri uchun bozor narxidan " ++
          (if priceRatio > 1.3 then "sezilarli darajada yuqori" else "bir oz yuqori") ++
          " ko'rinadi. O'zbekistonda muzokara qilish yoki boshqa joyda yaxshiroq qiymat qidirishni ko'rib chiqing. " ++
          conditionText ++ " holat va " ++ district ++
          " tumanidagi joylashuv ustamani oqlay olmasligi mumkin.",
        "Bu " ++ propertyTypeText ++
          " mulki hudud uchun odatdagi bozor narxlaridan yuqori narxlangan. " ++
          numToString size ++ "m² maydon va " ++ numToString rooms ++ " xonali " ++
          buildingTypeText ++
          " hozirgi O'zbekiston bozorida ustamani oqlay olmasligi mumkin. " ++
          conditionText ++ " holat va " ++ buildingTypeText ++
          " turi uning qiymatini oshirsa ham, narx haddan tashqari ko'rinadi.",
        city ++ " shahridagi joylashuv istisno bo'lsa-da, " ++ priceText ++
          " shunga o'xshash mulklarga nisbatan haddan tashqari ko'rinadi. O'zbekiston bozorida yaxshiroq bitimlar topishingiz mumkin. " ++
          district ++ " tumanidagi joylashuv va " ++ conditionText ++
          " holat uning qiymatini oshirsa ham, narx bozor standartlaridan yuqori." ]
  labelExplanations.getD (jsFloor (tplRand * (labelExplanations.length : ℚ))).toNat ""

/-- `analyzeApartment` of the simple variant (part_001 lines 28-122). -/
def analyzeApartment (data : ApartmentData) (currentYear jitRand tplRand : ℚ) :
    AnalysisResult :=
  let baseScore := baseScoreOf data currentYear jitRand
  let finalScore := clampRoundScore baseScore
  let label := labelFor finalScore
  let priceRatio := data.price / data.size /
    getExpectedPricePerSqm data.city data.propertyType
  { score := finalScore
    label := label
    explanation := generateExplanation finalScore label priceRatio data.city data.district
      data.size data.rooms data.propertyType data.buildingType data.condition tplRand }

/-- Outcome of the simple `POST` handler; as in the extended variant, the
scorer is applied only in the `ok` branch. -/
inductive PostResult
  | badRequest (error : String)
  | ok (result : AnalysisResult)

/-- `POST` of part_001 (lines 591-625) minus the artificial delay. -/
def POST (b : RawBody) (currentYear jitRand tplRand : ℚ) : PostResult :=
  if anyFieldMissing b then .badRequest errRequired
  else if validNumbersFail (toData b) then .badRequest errPositive
  else .ok (analyzeApartment (toData b) currentYear jitRand tplRand)

end Simple

/-! ## Specification-side definitions (for comparison with the code) -/

/-- The three-threshold label map as the specification words it
("score ≥ 6.5 ⇒ Underpriced; 4.0 ≤ score < 6.5 ⇒ Fair; score < 4.0 ⇒
Overpriced"), to be compared with the sources' `labelFor`. -/
def labelFromThresholds (score : ℚ) : Label :=
  if score ≥ 6.5 then .Underpriced
  else if score ≥ 4.0 then .Fair
  else .Overpriced

/-- The simple variant's pre-clamp score as the claim words it: identical
to `Simple.baseScoreOf` except that each non-price sub-score contributes
`(subscore − 5) × weight` at the documented weights — 30% location, 15%
building quality, 8% size efficiency, 2% amenities (the weights the
source's own comments state on part_001 lines 79-89). -/
def specSimpleWeightedScore (data : ApartmentData) (currentYear jitRand : ℚ) : ℚ :=
  5 + Simple.priceBandDelta (data.price / data.size /
      getExpectedPricePerSqm data.city data.propertyType)
    + Simple.getMarketVolatilityFactor data.city data.propertyType
    + (Simple.getLocationScore data.city data.district - 5) * 0.30
    + (Simple.getBuildingScore data.buildingType data.condition data.yearBuilt data.floor
        data.totalFloors currentYear - 5) * 0.15
    + (Simple.getSizeEfficiency data.size data.rooms - 5) * 0.08
    + (Simple.getAmenityScore data.description - 5) * 0.02
    + getRegionalGrowthFactor data.city
    + (jitRand - 0.5) * 0.6

/-! ## Predicates describing rejected request bodies -/

/-- Some required field is absent from the body. -/
def fieldMissing (b : RawBody) : Prop :=
  b.propertyType = none ∨ b.price = none ∨ b.size = none ∨ b.city = none ∨
    b.district = none ∨ b.exactLocation = none ∨ b.rooms = none ∨ b.floor = none ∨
    b.totalFloors = none ∨ b.buildingType = none ∨ b.condition = none ∨
    b.yearBuilt = none ∨ b.description = none

/-- The optional number is present but non-positive. -/
def optNonpos (o : Option ℚ) : Prop := ∃ x, o = some x ∧ x ≤ 0

/-- The optional year is present but at most 1900. -/
def optYearLow (o : Option ℚ) : Prop := ∃ x, o = some x ∧ x ≤ 1900

/-! ## Concrete inputs used by the claim theorems -/

/-- A valid listing whose price is exactly 5 times the expected rate times
its size (rent in Toshkent shahri: 5 × 8.3 × 100 = 4150). -/
def dC1 : ApartmentData :=
  { propertyType := .rent, price := 4150, size := 100, city := "toshkent shahri",
    district := "mirobod", exactLocation := "Mirobod tumani, 12-uy", rooms := 1,
    floor := 3, totalFloors := 5, buildingType := .penthouse, condition := .new,
    yearBuilt := 2024, description := "yaxshi uy" }

/-- A valid listing priced exactly at the Samarqand sale baseline
(750 × 50 = 37500), used to exhibit the weight divergence. -/
def dC2 : ApartmentData :=
  { propertyType := .sale, price := 37500, size := 50, city := "samarqand",
    district := "registon", exactLocation := "Registon maydoni", rooms := 2,
    floor := 4, totalFloors := 5, buildingType := .apartment, condition := .good,
    yearBuilt := 2000, description := "yaxshi" }

/-- A generic valid listing for witness instantiations. -/
def dC3 : ApartmentData :=
  { propertyType := .rent, price := 400, size := 80, city := "namangan",
    district := "markaz", exactLocation := "Markaz, 3-uy", rooms := 2,
    floor := 2, totalFloors := 4, buildingType := .apartment, condition := .good,
    yearBuilt := 2010, description := "balkon bor" }

/-- A generic valid listing for the rerun-stability witness. -/
def dC6 : ApartmentData :=
  { propertyType := .sale, price := 60000, size := 90, city := "buxoro",
    district := "poi kalon", exactLocation := "Poi Kalon 7", rooms := 3,
    floor := 5, totalFloors := 9, buildingType := .house, condition := .renovated,
    yearBuilt := 1995, description := "parking va lift" }

/-- A generic valid listing for the totality witness. -/
def dC8 : ApartmentData :=
  { propertyType := .rent, price := 300, size := 60, city := "urganch",
    district := "markaz", exactLocation := "Markaz 1", rooms := 2,
    floor := 3, totalFloors := 5, buildingType := .studio, condition := .good,
    yearBuilt := 2015, description := "internet bor" }

/-- A body whose only defect is `price = 0`, for the validation witness. -/
def bodyC5 : RawBody :=
  { propertyType := some .rent, price := some 0, size := some 50,
    city := some "samarqand", district := some "registon",
    exactLocation := some "Registon maydoni", rooms := some 2, floor := some 3,
    totalFloors := some 5, buildingType := some .apartment, condition := some .new,
    yearBuilt := some 2005, description := some "yaxshi" }

/-! ## Helper lemmas -/

/-- The clamped rounded score is an integer number of tenths, clamped
between the integers 10 and 100 of tenths. -/
theorem clampRoundScore_cast (x : ℚ) :
    clampRoundScore x = ((max 10 (min 100 (jsRound (x * 10))) : ℤ) : ℚ) / 10 := by
  unfold clampRoundScore
  push_cast
  simp only [max_def, min_def]
  split_ifs <;> linarith

/-- Range and granularity of the clamped rounded score. -/
theorem clampRoundScore_spec (x : ℚ) :
    1 ≤ clampRoundScore x ∧ clampRoundScore x ≤ 10 ∧
      ∃ k : ℤ, clampRoundScore x = (k : ℚ) / 10 := by
  refine ⟨le_max_left _ _, ?_, ⟨max 10 (min 100 (jsRound (x * 10))), clampRoundScore_cast x⟩⟩
  exact max_le (by norm_num) (min_le_left _ _)

/-- Clamping to `[1, 10]` is 1-Lipschitz. -/
theorem clamp_lip (a b : ℚ) : |max 1 (min 10 a) - max 1 (min 10 b)| ≤ |a - b| := by
  rw [abs_sub_le_iff]
  constructor <;>
  · simp only [max_def, min_def]
    split_ifs <;>
      linarith [le_abs_self (a - b), neg_abs_le (a - b), abs_nonneg (a - b)]

/-- Rounding to tenths moves by at most 6 tenths when the input moves by
at most 6 tenths. -/
theorem jsRound_le_shift (x y : ℚ) (h : x - y ≤ 6/10) :
    jsRound (x * 10) ≤ jsRound (y * 10) + 6 := by
  unfold jsRound
  have h2 : x * 10 + 1/2 ≤ (y * 10 + 1/2) + ((6 : ℤ) : ℚ) := by push_cast; linarith
  calc ⌊x * 10 + 1/2⌋ ≤ ⌊(y * 10 + 1/2) + ((6 : ℤ) : ℚ)⌋ := Int.floor_le_floor h2
    _ = ⌊y * 10 + 1/2⌋ + 6 := Int.floor_add_int _ _

/-- The final-score normalisation moves by at most 0.6 when its input
moves by at most 0.6. -/
theorem clampRoundScore_lip (x y : ℚ) (h : |x - y| ≤ 6/10) :
    |clampRoundScore x - clampRoundScore y| ≤ 6/10 := by
  obtain ⟨hl, hr⟩ := abs_le.1 h
  have h1 : (jsRound (x * 10) : ℚ) ≤ (jsRound (y * 10) : ℚ) + 6 := by
    exact_mod_cast jsRound_le_shift x y hr
  have h2 : (jsRound (y * 10) : ℚ) ≤ (jsRound (x * 10) : ℚ) + 6 := by
    exact_mod_cast jsRound_le_shift y x (by linarith)
  have key : |(jsRound (x * 10) : ℚ) / 10 - (jsRound (y * 10) : ℚ) / 10| ≤ 6/10 := by
    rw [abs_sub_le_iff]
    constructor <;> linarith
  calc |clampRoundScore x - clampRoundScore y|
      ≤ |(jsRound (x * 10) : ℚ) / 10 - (jsRound (y * 10) : ℚ) / 10| := clamp_lip _ _
    _ ≤ 6/10 := key

/-- Every branch of the expected-price table is positive. -/
theorem getExpectedPricePerSqm_pos (city : String) (pt : PropertyType) :
    0 < getExpectedPricePerSqm city pt := by
  unfold getExpectedPricePerSqm
  cases pt <;> dsimp only <;> split_ifs <;> norm_num

/-- The square-meters-per-room banding is monotone. -/
theorem sqmPerRoomBand_mono {q1 q2 : ℚ} (h : q1 ≤ q2) :
    sqmPerRoomBand q1 ≤ sqmPerRoomBand q2 := by
  unfold sqmPerRoomBand
  split_ifs <;> linarith

/-- A missing field makes the truthiness check fire. -/
theorem fieldMissing_any {b : RawBody} (h : fieldMissing b) : anyFieldMissing b = true := by
  unfold anyFieldMissing
  rcases h with h | h | h | h | h | h | h | h | h | h | h | h | h <;>
    simp [h, numFalsy, strFalsy, enumFalsy, Option.elim]

/-- A body matching the rejection predicate fails one of the two
validation checks. -/
theorem postPrecheck (b : RawBody)
    (h : fieldMissing b ∨ optNonpos b.price ∨ optNonpos b.size ∨ optNonpos b.rooms ∨
      optNonpos b.floor ∨ optNonpos b.totalFloors ∨ optYearLow b.yearBuilt) :
    anyFieldMissing b = true ∨ validNumbersFail (toData b) := by
  rcases h with h | h | h | h | h | h | h
  · exact Or.inl (fieldMissing_any h)
  · obtain ⟨x, hx, hx0⟩ := h
    refine Or.inr (Or.inl ?_)
    show b.price.getD 0 ≤ 0
    rw [hx]
    exact hx0
  · obtain ⟨x, hx, hx0⟩ := h
    refine Or.inr (Or.inr (Or.inl ?_))
    show b.size.getD 0 ≤ 0
    rw [hx]
    exact hx0
  · obtain ⟨x, hx, hx0⟩ := h
    refine Or.inr (Or.inr (Or.inr (Or.inl ?_)))
    show b.rooms.getD 0 ≤ 0
    rw [hx]
    exact hx0
  · obtain ⟨x, hx, hx0⟩ := h
    refine Or.inr (Or.inr (Or.inr (Or.inr (Or.inl ?_))))
    show b.floor.getD 0 ≤ 0
    rw [hx]
    exact hx0
  · obtain ⟨x, hx, hx0⟩ := h
    refine Or.inr (Or.inr (Or.inr (Or.inr (Or.inr (Or.inl ?_)))))
    show b.totalFloors.getD 0 ≤ 0
    rw [hx]
    exact hx0
  · obtain ⟨x, hx, hx0⟩ := h
    refine Or.inr (Or.inr (Or.inr (Or.inr (Or.inr (Or.inr ?_)))))
    show b.yearBuilt.getD 0 ≤ 1900
    rw [hx]
    exact hx0

/-! ## Claim theorems -/

/-- C1 (counterexample): a listing that passes validation, whose price is
exactly 5 times the expected price-per-area times its size (price ratio
5.0), yet whose returned label is `Fair`, not `Overpriced` — refuting the
claim that such an input always gets the label `Overpriced`. -/
theorem c1_ratio_five_not_always_overpriced :
    ValidApartment dC1 ∧
    dC1.price / dC1.size = 5 * getExpectedPricePerSqm dC1.city dC1.propertyType ∧
    (Extended.analyzeApartment dC1 2025 (fun _ => 0)).label = Label.Fair := by
  refine ⟨?_, ?_, ?_⟩
  · unfold ValidApartment dC1
    norm_num +decide
  · norm_num +decide [dC1, getExpectedPricePerSqm]
  · norm_num +decide [dC1, Extended.analyzeApartment, getExpectedPricePerSqm,
      Extended.calculatePriceComparisonScore, Extended.getLocationScore,
      Extended.calculateBuildingQualityScore, Extended.calculateAmenitiesScore,
      Extended.positiveAmenities, Extended.negativeIndicators,
      Extended.calculateSizeEfficiencyScore, sqmPerRoomBand, getRegionalGrowthFactor,
      clampRoundScore, jsRound, labelFor]

/-- C1 (amended): for every input passing validation whose price is 5
times the expected price-per-area for its city times its size, the
analysis falls in the lowest price band in both variants — price
sub-score 1.0 in the extended variant and price contribution −5.5 in the
simple variant, the minima of their respective band tables — regardless
of all other fields; the returned label, however, is not always
`Overpriced`. -/
theorem c1_ratio_five_lowest_band (d : ApartmentData) (cy : ℚ) (rng : ℕ → ℚ)
    (hv : ValidApartment d)
    (hr : d.price / d.size = 5 * getExpectedPricePerSqm d.city d.propertyType) :
    (Extended.analyzeApartment d cy rng).factors.priceComparison.score = 1.0 ∧
    (∀ r : ℚ, 1.0 ≤ Extended.calculatePriceComparisonScore r) ∧
    Simple.priceBandDelta
      (d.price / d.size / getExpectedPricePerSqm d.city d.propertyType) = -5.5 ∧
    (∀ r : ℚ, -5.5 ≤ Simple.priceBandDelta r) := by
  have hE := getExpectedPricePerSqm_pos d.city d.propertyType
  have hratio : d.price / d.size / getExpectedPricePerSqm d.city d.propertyType = 5 := by
    rw [hr]
    field_simp
  refine ⟨?_, ?_, ?_, ?_⟩
  · have hcalc : (Extended.analyzeApartment d cy rng).factors.priceComparison.score
        = Extended.calculatePriceComparisonScore
          (d.price / d.size / getExpectedPricePerSqm d.city d.propertyType) := rfl
    rw [hcalc, hratio]
    norm_num [Extended.calculatePriceComparisonScore]
  · intro r
    unfold Extended.calculatePriceComparisonScore
    split_ifs <;> norm_num
  · rw [hratio]
    norm_num [Simple.priceBandDelta]
  · intro r
    unfold Simple.priceBandDelta
    split_ifs <;> norm_num

/-- C1 (witness): the amended statement instantiated at the concrete
ratio-5 listing `dC1`. -/
theorem c1_ratio_five_lowest_band_witness :
    (Extended.analyzeApartment dC1 2025 (fun _ => 0)).factors.priceComparison.score = 1.0 ∧
    Simple.priceBandDelta
      (dC1.price / dC1.size / getExpectedPricePerSqm dC1.city dC1.propertyType) = -5.5 :=
  ⟨(c1_ratio_five_lowest_band dC1 2025 (fun _ => 0)
      (by unfold ValidApartment dC1; norm_num +decide)
      (by norm_num +decide [dC1, getExpectedPricePerSqm])).1,
   (c1_ratio_five_lowest_band dC1 2025 (fun _ => 0)
      (by unfold ValidApartment dC1; norm_num +decide)
      (by norm_num +decide [dC1, getExpectedPricePerSqm])).2.2.1⟩

/-- C2 (code bug): at the valid listing `dC2` the simple variant's
pre-clamp score is 11.01, while the weighted sum the claim (and the
source's own comments) describe — weights 0.30 / 0.15 / 0.08 / 0.02 for
location / building / size / amenities — yields 7.845: the code multiplies
the non-price sub-scores by 0.65 / 0.35 / 0.25 / 0.1 instead. -/
theorem c2_simple_weights_diverge :
    ValidApartment dC2 ∧
    Simple.baseScoreOf dC2 2025 (1/2) = 11.01 ∧
    specSimpleWeightedScore dC2 2025 (1/2) = 7.845 ∧
    Simple.baseScoreOf dC2 2025 (1/2) ≠ specSimpleWeightedScore dC2 2025 (1/2) := by
  have hB : Simple.baseScoreOf dC2 2025 (1/2) = 11.01 := by
    norm_num +decide [dC2, Simple.baseScoreOf, Simple.priceBandDelta,
      Simple.getMarketVolatilityFactor, Simple.getLocationScore, Simple.getBuildingScore,
      Simple.getSizeEfficiency, sqmPerRoomBand, Simple.getAmenityScore,
      getExpectedPricePerSqm, getRegionalGrowthFactor]
  have hS : specSimpleWeightedScore dC2 2025 (1/2) = 7.845 := by
    norm_num +decide [dC2, specSimpleWeightedScore, Simple.priceBandDelta,
      Simple.getMarketVolatilityFactor, Simple.getLocationScore, Simple.getBuildingScore,
      Simple.getSizeEfficiency, sqmPerRoomBand, Simple.getAmenityScore,
      getExpectedPricePerSqm, getRegionalGrowthFactor]
  refine ⟨?_, hB, hS, ?_⟩
  · unfold ValidApartment dC2
    norm_num +decide
  · rw [hB, hS]
    norm_num

/-- C3: for every input passing validation, the final score of either
variant lies in `[1, 10]` and is an exact integer multiple of 0.1. -/
theorem c3_score_range_and_granularity (d : ApartmentData) (cy : ℚ) (rng : ℕ → ℚ)
    (jitRand tplRand : ℚ) (hv : ValidApartment d) :
    (1 ≤ (Extended.analyzeApartment d cy rng).score ∧
      (Extended.analyzeApartment d cy rng).score ≤ 10 ∧
      ∃ k : ℤ, (Extended.analyzeApartment d cy rng).score = (k : ℚ) / 10) ∧
    (1 ≤ (Simple.analyzeApartment d cy jitRand tplRand).score ∧
      (Simple.analyzeApartment d cy jitRand tplRand).score ≤ 10 ∧
      ∃ k : ℤ, (Simple.analyzeApartment d cy jitRand tplRand).score = (k : ℚ) / 10) := by
  constructor
  · obtain ⟨b, hb⟩ : ∃ b, (Extended.analyzeApartment d cy rng).score = clampRoundScore b :=
      ⟨_, rfl⟩
    rw [hb]
    exact clampRoundScore_spec b
  · obtain ⟨b, hb⟩ :
        ∃ b, (Simple.analyzeApartment d cy jitRand tplRand).score = clampRoundScore b :=
      ⟨_, rfl⟩
    rw [hb]
    exact clampRoundScore_spec b

/-- C3 (witness): the range statement instantiated at the valid listing
`dC3`. -/
theorem c3_score_range_and_granularity_witness :
    1 ≤ (Extended.analyzeApartment dC3 2025 (fun _ => 0)).score ∧
    1 ≤ (Simple.analyzeApartment dC3 2025 0 0).score :=
  ⟨(c3_score_range_and_granularity dC3 2025 (fun _ => 0) 0 0
      (by unfold ValidApartment dC3; norm_num +decide)).1.1,
   (c3_score_range_and_granularity dC3 2025 (fun _ => 0) 0 0
      (by unfold ValidApartment dC3; norm_num +decide)).2.1⟩

/-- C4: in both variants the label is determined by the final score alone
via the thresholds 6.5 and 4.0 — the sources' extra `≥ 8.0` branch
resolves to the same label `Underpriced`. -/
theorem c4_label_determined_by_thresholds :
    (∀ s : ℚ, labelFor s = labelFromThresholds s) ∧
    (∀ (d : ApartmentData) (cy : ℚ) (rng : ℕ → ℚ),
      (Extended.analyzeApartment d cy rng).label
        = labelFor (Extended.analyzeApartment d cy rng).score) ∧
    (∀ (d : ApartmentData) (cy jitRand tplRand : ℚ),
      (Simple.analyzeApartment d cy jitRand tplRand).label
        = labelFor (Simple.analyzeApartment d cy jitRand tplRand).score) := by
  refine ⟨?_, fun d cy rng => rfl, fun d cy j t => rfl⟩
  intro s
  unfold labelFor labelFromThresholds
  split_ifs <;> first | rfl | linarith

/-- C5: a request body with a missing required field, a non-positive
`price`, `size`, `rooms`, `floor` or `totalFloors`, or `yearBuilt ≤ 1900`
makes both `POST` handlers answer HTTP 400 with an error message — the
`badRequest` branch, in which the scorer is never applied; in particular
`price = 0` (a falsy number) is rejected this way. -/
theorem c5_validation_rejects (b : RawBody) (cy : ℚ) (rng : ℕ → ℚ) (jitRand tplRand : ℚ)
    (h : fieldMissing b ∨ optNonpos b.price ∨ optNonpos b.size ∨ optNonpos b.rooms ∨
      optNonpos b.floor ∨ optNonpos b.totalFloors ∨ optYearLow b.yearBuilt) :
    (∃ msg, Extended.POST b cy rng = .badRequest msg) ∧
    (∃ msg, Simple.POST b cy jitRand tplRand = .badRequest msg) := by
  rcases postPrecheck b h with hm | hn
  · exact ⟨⟨errRequired, by unfold Extended.POST; rw [if_pos hm]⟩,
      ⟨errRequired, by unfold Simple.POST; rw [if_pos hm]⟩⟩
  · by_cases hm : anyFieldMissing b = true
    · exact ⟨⟨errRequired, by unfold Extended.POST; rw [if_pos hm]⟩,
        ⟨errRequired, by unfold Simple.POST; rw [if_pos hm]⟩⟩
    · refine ⟨⟨errPositive, ?_⟩, ⟨errPositive, ?_⟩⟩
      · unfold Extended.POST
        rw [if_neg hm, if_pos hn]
      · unfold Simple.POST
        rw [if_neg hm, if_pos hn]

/-- C5 (witness): the rejection statement instantiated at the body
`bodyC5`, whose only defect is `price = 0`. -/
theorem c5_validation_rejects_witness :
    (∃ msg, Extended.POST bodyC5 2025 (fun _ => 0) = .badRequest msg) ∧
    (∃ msg, Simple.POST bodyC5 2025 0 0 = .badRequest msg) :=
  c5_validation_rejects bodyC5 2025 (fun _ => 0) 0 0
    (Or.inr (Or.inl ⟨0, rfl, le_refl 0⟩))

/-- C6: two runs on the identical valid input give final scores at most
0.6 apart in the simple variant (the only randomness in the score being
the jitter `(r − 0.5) × 0.6` with `r ∈ [0, 1)`), and exactly equal in the
extended variant, whose score uses no random draw. -/
theorem c6_rerun_stability :
    (∀ (d : ApartmentData) (cy j1 j2 t1 t2 : ℚ), 0 ≤ j1 → j1 < 1 → 0 ≤ j2 → j2 < 1 →
      |(Simple.analyzeApartment d cy j1 t1).score -
        (Simple.analyzeApartment d cy j2 t2).score| ≤ 0.6) ∧
    (∀ (d : ApartmentData) (cy : ℚ) (rng1 rng2 : ℕ → ℚ),
      (Extended.analyzeApartment d cy rng1).score
        = (Extended.analyzeApartment d cy rng2).score) := by
  constructor
  · intro d cy j1 j2 t1 t2 h1 h1' h2 h2'
    have hle : |Simple.baseScoreOf d cy j1 - Simple.baseScoreOf d cy j2| ≤ 6/10 := by
      have hdiff : Simple.baseScoreOf d cy j1 - Simple.baseScoreOf d cy j2
          = (j1 - j2) * 0.6 := by
        unfold Simple.baseScoreOf
        ring
      have habs : |j1 - j2| ≤ 1 := abs_le.mpr ⟨by linarith, by linarith⟩
      rw [hdiff, abs_mul]
      have h06 : |(0.6 : ℚ)| = 0.6 := by norm_num
      rw [h06]
      nlinarith [abs_nonneg (j1 - j2)]
    calc |(Simple.analyzeApartment d cy j1 t1).score -
          (Simple.analyzeApartment d cy j2 t2).score|
        = |clampRoundScore (Simple.baseScoreOf d cy j1) -
            clampRoundScore (Simple.baseScoreOf d cy j2)| := rfl
      _ ≤ 6/10 := clampRoundScore_lip _ _ hle
      _ ≤ 0.6 := by norm_num
  · intro d cy rng1 rng2
    rfl

/-- C6 (witness): the stability statement instantiated at the valid
listing `dC6` with jitter draws 0 and 1/2. -/
theorem c6_rerun_stability_witness :
    |(Simple.analyzeApartment dC6 2025 0 0).score -
      (Simple.analyzeApartment dC6 2025 (1/2) 0).score| ≤ 0.6 ∧
    (Extended.analyzeApartment dC6 2025 (fun _ => 0)).score
      = (Extended.analyzeApartment dC6 2025 (fun _ => 1/2)).score :=
  ⟨c6_rerun_stability.1 dC6 2025 0 (1/2) 0 0 (by norm_num) (by norm_num) (by norm_num)
      (by norm_num),
   c6_rerun_stability.2 dC6 2025 (fun _ => 0) (fun _ => 1/2)⟩

/-- C7: the size-efficiency sub-score is, for fixed positive room count, a
non-decreasing function of size/rooms taking values in {3,…,9}; a room
count of 0 yields exactly 3; and the simple variant's `getSizeEfficiency`
agrees with the extended `calculateSizeEfficiencyScore` everywhere. -/
theorem c7_size_efficiency_band :
    (∀ size1 size2 rooms : ℚ, 0 < rooms → size1 / rooms ≤ size2 / rooms →
      Extended.calculateSizeEfficiencyScore size1 rooms
        ≤ Extended.calculateSizeEfficiencyScore size2 rooms) ∧
    (∀ size rooms : ℚ,
      Extended.calculateSizeEfficiencyScore size rooms ∈ ({3, 4, 5, 6, 7, 8, 9} : Set ℚ)) ∧
    (∀ size : ℚ, Extended.calculateSizeEfficiencyScore size 0 = 3) ∧
    (∀ size rooms : ℚ,
      Simple.getSizeEfficiency size rooms = Extended.calculateSizeEfficiencyScore size rooms) := by
  refine ⟨?_, ?_, ?_, fun size rooms => rfl⟩
  · intro s1 s2 r hr hle
    unfold Extended.calculateSizeEfficiencyScore
    rw [if_neg hr.ne', if_neg hr.ne']
    exact sqmPerRoomBand_mono hle
  · intro s r
    unfold Extended.calculateSizeEfficiencyScore sqmPerRoomBand
    simp only [Set.mem_insert_iff, Set.mem_singleton_iff]
    split_ifs <;> norm_num
  · intro s
    unfold Extended.calculateSizeEfficiencyScore
    rw [if_pos rfl]

/-- C7 (witness): monotonicity instantiated at sizes 10 and 100 with 2
rooms. -/
theorem c7_size_efficiency_band_witness :
    Extended.calculateSizeEfficiencyScore 10 2 ≤ Extended.calculateSizeEfficiencyScore 100 2 :=
  c7_size_efficiency_band.1 10 100 2 (by norm_num) (by norm_num)

/-- C8: under the validation preconditions the scorer is total — both
divisors `size` and `rooms` are nonzero, the expected-price divisor is
positive, and the defensive `rooms = 0` branch of the size-efficiency
step is not taken in either variant (the score is the banded quotient). -/
theorem c8_scoring_total_under_validation (d : ApartmentData) (hv : ValidApartment d) :
    d.size ≠ 0 ∧ d.rooms ≠ 0 ∧
    0 < getExpectedPricePerSqm d.city d.propertyType ∧
    Extended.calculateSizeEfficiencyScore d.size d.rooms = sqmPerRoomBand (d.size / d.rooms) ∧
    Simple.getSizeEfficiency d.size d.rooms = sqmPerRoomBand (d.size / d.rooms) := by
  obtain ⟨hp, hs, hr, -, -, -, -, -, -, -⟩ := hv
  refine ⟨hs.ne', hr.ne', getExpectedPricePerSqm_pos d.city d.propertyType, ?_, ?_⟩
  · unfold Extended.calculateSizeEfficiencyScore
    rw [if_neg hr.ne']
  · unfold Simple.getSizeEfficiency
    rw [if_neg hr.ne']

/-- C8 (witness): totality instantiated at the valid listing `dC8`. -/
theorem c8_scoring_total_under_validation_witness :
    dC8.size ≠ 0 ∧ dC8.rooms ≠ 0 ∧
    0 < getExpectedPricePerSqm dC8.city dC8.propertyType ∧
    Extended.calculateSizeEfficiencyScore dC8.size dC8.rooms
      = sqmPerRoomBand (dC8.size / dC8.rooms) ∧
    Simple.getSizeEfficiency dC8.size dC8.rooms = sqmPerRoomBand (dC8.size / dC8.rooms) :=
  c8_scoring_total_under_validation dC8 (by unfold ValidApartment dC8; norm_num +decide)

/-- C9: any city string whose lowercase form contains both
"toshkent shahri" and "viloyat" gets the capital rate — 8.3 for rent,
1128 for sale — because the capital predicate is checked before the
generic "viloyat" fallback (the lookup is shared verbatim by both
variants). -/
theorem c9_capital_beats_viloyat_fallback (city : String)
    (h1 : strIncludes (lowerStr city) "toshkent shahri" = true)
    (h2 : strIncludes (lowerStr city) "viloyat" = true) :
    getExpectedPricePerSqm city .rent = 8.3 ∧ getExpectedPricePerSqm city .sale = 1128 := by
  constructor <;>
  · unfold getExpectedPricePerSqm
    simp only [h1, if_true]

/-- C9 (witness): the priority statement instantiated at the city string
"Toshkent shahri (viloyat)", which contains both substrings. -/
theorem c9_capital_beats_viloyat_fallback_witness :
    getExpectedPricePerSqm "Toshkent shahri (viloyat)" .rent = 8.3 ∧
    getExpectedPricePerSqm "Toshkent shahri (viloyat)" .sale = 1128 :=
  c9_capital_beats_viloyat_fallback "Toshkent shahri (viloyat)" (by decide) (by decide)

/-- C10: the extended analysis is independent of `exactLocation`: two
inputs differing only in that field produce identical results — same
score, label, explanation, factor sub-scores and reasons, and market
insights — given the same random draws for the listing counts. -/
theorem c10_exactLocation_has_no_influence (d : ApartmentData) (loc : String)
    (cy : ℚ) (rng : ℕ → ℚ) :
    Extended.analyzeApartment { d with exactLocation := loc } cy rng
      = Extended.analyzeApartment d cy rng := rfl

end MulkTahlilchi
